import Mathlib

/-!
Shallow embedding of the `nuls` directory-listing tool (`src/main.rs`).

Modelling conventions:
* Terminal styling (the `owo_colors` combinators) is modelled by tagged
  fragments: a styled string is a list of fragments, each carrying the stack
  of style names applied to it together with its raw text.  `plain` recovers
  the unstyled content; all spec claims are stated "modulo color styling",
  i.e. about `plain` of the produced value.
* Fallible platform calls (`fs::metadata`, `DirEntry::metadata`,
  `OsString::into_string`, `fs::read_dir`, `fs::exists`, `Metadata::modified`,
  `User::from_uid`) are modelled as `Option`-valued inputs carried by the
  `DirEntry` / `Metadata` / `Sys` records.
* A Rust panic (`Option::unwrap` on `None` / `Result::unwrap` on `Err`) is
  modelled as `Except.error ()`.
* `u64` / `u32` values are modelled as `Nat`; no arithmetic in the program
  overflows them.  The `f64` rounding `(size as f64 / d).round()` of
  `parse_file_size` is modelled as exact rational round-half-away-from-zero
  (`roundDiv`), which agrees with the `f64` computation for every
  `size < 2^53` (the quotient by a power of two is then exactly
  representable).
* Timestamps are seconds since the Unix epoch (`Int`); chrono's
  `DateTime<Utc>` calendar decomposition and the `"%e %b %H:%M"` format
  string are modelled by `civilFromDays` / `chronoFormat` (proleptic
  Gregorian calendar, the algorithm chrono implements).
-/

/-- File-type of a metadata snapshot: directory, regular file, or any other
kind of filesystem object (socket, FIFO, device, ...).  `is_dir()` is
`ftype = dir`, `is_file()` is `ftype = file`. -/
inductive FType where
  | dir : FType
  | file : FType
  | other : FType
deriving DecidableEq

/-- Model of `fs::Metadata`: the fields the program reads.  `modified` is
`none` when `Metadata::modified()` returns `Err` (platform without mtime
support or I/O error). -/
structure Metadata where
  ftype : FType
  len : Nat
  mode : Nat
  uid : Nat
  modified : Option Int
deriving DecidableEq

/-- Model of one `fs::DirEntry`.  `pathMeta` is the result of
`fs::metadata(entry.path())` (the fetch in `get_entries`), `entryMeta` the
result of the separate call `entry.metadata()` made inside
`parse_file_name`, and `fileName` the result of
`entry.file_name().into_string()` (`none` when the name is not valid
UTF-8). -/
structure DirEntry where
  pathMeta : Option Metadata
  entryMeta : Option Metadata
  fileName : Option String
deriving DecidableEq

/-- A styled string: fragments of raw text, each under a stack of style
names. -/
abbrev Styled := List (List String × String)

/-- An unstyled text fragment. -/
def txt (s : String) : Styled := [([], s)]

/-- Apply one style (an `owo_colors` combinator) to a whole styled string. -/
def styleWith (tag : String) (x : Styled) : Styled :=
  x.map fun p => (tag :: p.1, p.2)

def green (x : Styled) : Styled := styleWith "green" x
def cyan (x : Styled) : Styled := styleWith "cyan" x
def brightYellow (x : Styled) : Styled := styleWith "bright_yellow" x
def brightRed (x : Styled) : Styled := styleWith "bright_red" x
def brightBlue (x : Styled) : Styled := styleWith "bright_blue" x
def brightBlack (x : Styled) : Styled := styleWith "bright_black" x
def blue (x : Styled) : Styled := styleWith "blue" x
def white (x : Styled) : Styled := styleWith "white" x
def red (x : Styled) : Styled := styleWith "red" x
def bold (x : Styled) : Styled := styleWith "bold" x

/-- The unstyled content of a styled string ("modulo color styling"). -/
def plain : Styled → String
  | [] => ""
  | f :: rest => f.2 ++ plain rest

/-- External identity directory (`nix::unistd::User::from_uid`):
`resolve uid = none` models `Err`, `some none` models `Ok(None)` (no such
user), `some (some name)` models `Ok(Some(user))` with `user.name = name`. -/
structure Sys where
  resolve : Nat → Option (Option String)

/-- Round-half-away-from-zero division on naturals: the value of
`(n as f64 / d as f64).round()` for every `n < 2^53`. -/
def roundDiv (n d : Nat) : Nat := (2 * n + d) / (2 * d)

/-- `parse_file_size` from `src/main.rs`: three size tiers with strict
comparisons `size < 1024` and `size > 1024 * 1024`. -/
def parse_file_size (size : Nat) : Styled :=
  if size < 1024 then
    green (txt (toString size))
  else if size > 1024 * 1024 then
    brightYellow (txt (toString (roundDiv size (1024 * 1024)) ++ "m"))
  else
    brightYellow (txt (toString (roundDiv size 1024) ++ "k"))

/-- `uid_to_string` from `src/main.rs`: the resolved user name on
`Ok(Some(user))`, the sentinel `"User error"` on every other outcome. -/
def uid_to_string (sys : Sys) (uid : Nat) : String :=
  match sys.resolve uid with
  | some (some user) => user
  | _ => "User error"

/-- The `flags` array of `permissions_to_string`: nine (bit, character)
pairs in the fixed order 0o400 .. 0o001. -/
def permFlags : List (Nat × Char) :=
  [(0o400, 'r'), (0o200, 'w'), (0o100, 'x'),
   (0o040, 'r'), (0o020, 'w'), (0o010, 'x'),
   (0o004, 'r'), (0o002, 'w'), (0o001, 'x')]

/-- One iteration of the `for (i, (bit, ch)) in flags.iter().enumerate()`
loop body of `permissions_to_string`. -/
def permChar (i : Nat) (bit : Nat) (ch : Char) (mode : Nat) : Styled :=
  if mode &&& bit ≠ 0 then
    if i < 3 then
      match ch with
      | 'x' => brightYellow (txt ch.toString)
      | 'w' => brightRed (txt ch.toString)
      | 'r' => brightYellow (txt ch.toString)
      | _ => txt ch.toString
    else
      green (txt ch.toString)
  else
    brightBlack (txt "-")

/-- `permissions_to_string` from `src/main.rs`: a leading `d` (directory) or
`.` (anything else), then the nine flag positions, the whole string
bold. -/
def permissions_to_string (md : Metadata) (mode : Nat) : Styled :=
  let head : Styled :=
    if md.ftype = FType.dir then brightBlue (txt "d") else white (txt ".")
  let body : Styled :=
    (permFlags.enum.map fun p => permChar p.1 p.2.1 p.2.2 mode).foldl
      (fun a b => a ++ b) []
  bold (head ++ body)

/-- `parse_file_name` from `src/main.rs`.  Note the
`entry.metadata().unwrap()`: when that second metadata fetch fails the
function panics, modelled as `Except.error ()`.  The name decode falls back
to `"Unknown name"`. -/
def parse_file_name (entry : DirEntry) : Except Unit Styled :=
  match entry.entryMeta with
  | none => Except.error ()
  | some md =>
    if md.ftype = FType.dir then
      Except.ok (bold (blue (txt (entry.fileName.getD "Unknown name"))))
    else
      Except.ok (white (txt (entry.fileName.getD "Unknown name")))

/-- The `FileType` enum of `src/main.rs`. -/
inductive FileType where
  | File : FileType
  | Dir : FileType
deriving DecidableEq

/-- The `FileEntry` record of `src/main.rs`: the six display fields. -/
structure FileEntry where
  permissions : Styled
  length : Styled
  owner : String
  name : Styled
  e_type : FileType
  modified : String
deriving DecidableEq

/-- Civil-calendar decomposition of a day count since 1970-01-01 into
(year, month, day), proleptic Gregorian — the algorithm used by chrono's
`DateTime<Utc>`. -/
def civilFromDays (z0 : Int) : Int × Nat × Nat :=
  let z : Int := z0 + 719468
  let era : Int := z.ediv 146097
  let doe : Nat := (z - era * 146097).toNat
  let yoe : Nat := (doe - doe / 1460 + doe / 36524 - doe / 146096) / 365
  let doy : Nat := doe - (365 * yoe + yoe / 4 - yoe / 100)
  let mp : Nat := (5 * doy + 2) / 153
  let d : Nat := doy - (153 * mp + 2) / 5 + 1
  let m : Nat := if mp < 10 then mp + 3 else mp - 9
  ((yoe : Int) + era * 400 + (if m ≤ 2 then 1 else 0), m, d)

/-- Abbreviated month name, chrono's `%b`. -/
def monthAbbrev (m : Nat) : String :=
  match m with
  | 1 => "Jan" | 2 => "Feb" | 3 => "Mar" | 4 => "Apr"
  | 5 => "May" | 6 => "Jun" | 7 => "Jul" | 8 => "Aug"
  | 9 => "Sep" | 10 => "Oct" | 11 => "Nov" | 12 => "Dec"
  | _ => ""

/-- Two-digit zero padding, chrono's `%H` / `%M`. -/
def pad2 (n : Nat) : String :=
  if n < 10 then "0" ++ toString n else toString n

/-- Space-padded day of month, chrono's `%e`. -/
def padSpaceDay (n : Nat) : String :=
  if n < 10 then " " ++ toString n else toString n

/-- chrono's rendering of `date.format("%e %b %H:%M")` for a `DateTime<Utc>`
obtained from a `SystemTime` `t` seconds after the Unix epoch. -/
def chronoFormat (t : Int) : String :=
  let days : Int := t.ediv 86400
  let secs : Nat := (t.emod 86400).toNat
  let c := civilFromDays days
  padSpaceDay c.2.2 ++ " " ++ monthAbbrev c.2.1 ++ " " ++
    pad2 (secs / 3600) ++ ":" ++ pad2 (secs % 3600 / 60)

/-- The `FileEntry` struct literal built in `get_entries` once the metadata
fetch succeeded and `parse_file_name` returned `nm`. -/
def mkRecord (sys : Sys) (md : Metadata) (nm : Styled) : FileEntry :=
  { permissions := permissions_to_string md md.mode
    length :=
      if md.ftype = FType.file then parse_file_size md.len
      else cyan (txt "-")
    owner := uid_to_string sys md.uid
    name := nm
    e_type := if md.ftype = FType.dir then FileType.Dir else FileType.File
    modified :=
      match md.modified with
      | some t => chronoFormat t
      | none => "" }

/-- `get_entries` from `src/main.rs`: skip the entry when
`fs::metadata(entry.path())` fails, otherwise push the formatted record —
propagating the panic that `parse_file_name` can raise. -/
def get_entries (sys : Sys) (entry : DirEntry) (data : List FileEntry) :
    Except Unit (List FileEntry) :=
  match entry.pathMeta with
  | some md =>
    match parse_file_name entry with
    | Except.ok nm => Except.ok (data ++ [mkRecord sys md nm])
    | Except.error e => Except.error e
  | none => Except.ok data

/-- `get_files` from `src/main.rs`.  `rd = none` models `fs::read_dir`
failing (result `[]`); `rd = some es` models success, where each list element
is the `io::Result<DirEntry>` yielded by the iterator (`none` elements are
dropped by `.flatten()`). -/
def get_files (sys : Sys) (rd : Option (List (Option DirEntry))) :
    Except Unit (List FileEntry) :=
  match rd with
  | some es =>
    (es.filterMap id).foldlM (fun data e => get_entries sys e data) []
  | none => Except.ok []

/-- What one invocation prints: either the rendered table of records, or one
of the two fixed (styled) messages. -/
inductive Output where
  | table : List FileEntry → Output
  | message : Styled → Output

/-- The branching of `main` from `src/main.rs` after argument parsing:
`existsRes` is the result of `fs::exists(&path)` (`none` = `Err`), `rd` the
directory-read outcome consumed by `get_files`. -/
def mainModel (sys : Sys) (existsRes : Option Bool)
    (rd : Option (List (Option DirEntry))) : Except Unit Output :=
  match existsRes with
  | some b =>
    if b then
      match get_files sys rd with
      | Except.ok files => Except.ok (Output.table files)
      | Except.error e => Except.error e
    else
      Except.ok (Output.message (red (txt "Path does not exist")))
  | none => Except.ok (Output.message (red (txt "Error reading directory")))

/-- One flag position of the unstyled permission body, following the spec's
wording: emit the permission character when the bit is set, `-` when it is
clear. -/
def bitStr (mode : Nat) (bit : Nat) (c : Char) : String :=
  if mode &&& bit ≠ 0 then c.toString else "-"

/-- The nine-character unstyled permission body in the spec's fixed order
0o400, 0o200, 0o100, 0o040, 0o020, 0o010, 0o004, 0o002, 0o001. -/
def permBody (mode : Nat) : String :=
  bitStr mode 0o400 'r' ++ bitStr mode 0o200 'w' ++ bitStr mode 0o100 'x' ++
  bitStr mode 0o040 'r' ++ bitStr mode 0o020 'w' ++ bitStr mode 0o010 'x' ++
  bitStr mode 0o004 'r' ++ bitStr mode 0o002 'w' ++ bitStr mode 0o001 'x'

/-- The record `get_entries` produces for one entry, or `none` when the
entry is skipped or makes the program abort — used to state the listing
claim. -/
def specOne (sys : Sys) (e : DirEntry) : Option FileEntry :=
  match e.pathMeta, parse_file_name e with
  | some md, Except.ok nm => some (mkRecord sys md nm)
  | _, _ => none

/-- Modelled from the spec: the expected listing — the surviving entries'
records, in enumeration order, entries with failed metadata fetches
omitted. -/
def listingSpec (sys : Sys) (es : List (Option DirEntry)) : List FileEntry :=
  (es.filterMap id).filterMap (specOne sys)

/-! ### Helper lemmas about `plain` -/

theorem plain_append (x y : Styled) : plain (x ++ y) = plain x ++ plain y := by
  induction x with
  | nil => simp [plain]
  | cons f rest ih => simp [plain, ih, String.append_assoc]

theorem plain_styleWith (tag : String) (x : Styled) :
    plain (styleWith tag x) = plain x := by
  induction x with
  | nil => simp [styleWith, plain]
  | cons f rest ih => simpa [styleWith, plain] using congrArg (f.2 ++ ·) ih

theorem plain_txt (s : String) : plain (txt s) = s := by
  simp [txt, plain]

theorem plain_green (x : Styled) : plain (green x) = plain x :=
  plain_styleWith _ x
theorem plain_cyan (x : Styled) : plain (cyan x) = plain x :=
  plain_styleWith _ x
theorem plain_brightYellow (x : Styled) : plain (brightYellow x) = plain x :=
  plain_styleWith _ x
theorem plain_brightRed (x : Styled) : plain (brightRed x) = plain x :=
  plain_styleWith _ x
theorem plain_brightBlue (x : Styled) : plain (brightBlue x) = plain x :=
  plain_styleWith _ x
theorem plain_brightBlack (x : Styled) : plain (brightBlack x) = plain x :=
  plain_styleWith _ x
theorem plain_blue (x : Styled) : plain (blue x) = plain x :=
  plain_styleWith _ x
theorem plain_white (x : Styled) : plain (white x) = plain x :=
  plain_styleWith _ x
theorem plain_red (x : Styled) : plain (red x) = plain x :=
  plain_styleWith _ x
theorem plain_bold (x : Styled) : plain (bold x) = plain x :=
  plain_styleWith _ x

/-! ### C1: size tiering -/

/-- C1: for every byte length, the size string of a regular file follows the
three-tier scheme with exact half-open boundaries — below 1024 the raw
integer, strictly above 1024*1024 the rounded megabyte count with suffix
"m", and the inclusive band [1024, 1024*1024] the rounded kilobyte count
with suffix "k" — modulo color styling; in particular 0 ↦ "0",
1023 ↦ "1023", 1024 ↦ "1k", 1048576 ↦ "1024k" (the boundary stays in the
"k" tier) and 1048577 ↦ "1m". -/
theorem size_tiering_C1 :
    (∀ size : Nat, plain (parse_file_size size) =
      if size < 1024 then toString size
      else if size > 1024 * 1024 then
        toString (roundDiv size (1024 * 1024)) ++ "m"
      else toString (roundDiv size 1024) ++ "k") ∧
    plain (parse_file_size 0) = "0" ∧
    plain (parse_file_size 1023) = "1023" ∧
    plain (parse_file_size 1024) = "1k" ∧
    plain (parse_file_size (1024 * 1024)) = "1024k" ∧
    plain (parse_file_size (1024 * 1024 + 1)) = "1m" := by
  refine ⟨?_, by decide, by decide, by decide, by decide, by decide⟩
  intro size
  unfold parse_file_size
  split_ifs <;>
    simp [plain_green, plain_brightYellow, plain_txt]
theorem plain_permChar (i bit : Nat) (ch : Char) (mode : Nat) :
    plain (permChar i bit ch mode) = bitStr mode bit ch := by
  unfold permChar bitStr
  split_ifs with h hi
  · split <;> simp [plain_brightYellow, plain_brightRed, plain_txt]
  · simp [plain_green, plain_txt]
  · simp [plain_brightBlack, plain_txt]

theorem plain_permissions (md : Metadata) (mode : Nat) :
    plain (permissions_to_string md mode) =
      (if md.ftype = FType.dir then "d" else ".") ++ permBody mode := by
  unfold permissions_to_string
  simp only [permFlags, List.enum, List.enumFrom, List.map, List.foldl,
    List.nil_append, plain_bold, plain_append, plain_permChar, permBody]
  split_ifs <;>
    simp [plain_brightBlue, plain_white, plain_txt, String.append_assoc]
theorem bitStr_length (mode bit : Nat) (c : Char) : (bitStr mode bit c).length = 1 := by
  unfold bitStr
  split_ifs <;> rfl

/-- C2: for every metadata snapshot and mode word, the permission string is,
modulo color styling, exactly the leading marker — `d` for a directory, `.`
otherwise, independent of the mode bits — followed by the nine-character
body decoding the bits 0o400, 0o200, 0o100, 0o040, 0o020, 0o010, 0o004,
0o002, 0o001 in that fixed order as `r`/`w`/`x` when set and `-` when
clear; in particular it is always ten characters, and the bodies for modes
0o754, 0o000 and 0o644 are `rwxr-xr--`, `---------` and `rw-r--r--`. -/
theorem permissions_C2 :
    (∀ (md : Metadata) (mode : Nat), plain (permissions_to_string md mode) =
      (if md.ftype = FType.dir then "d" else ".") ++ permBody mode) ∧
    (∀ (md : Metadata) (mode : Nat),
      (plain (permissions_to_string md mode)).length = 10) ∧
    permBody 0o754 = "rwxr-xr--" ∧
    permBody 0o000 = "---------" ∧
    permBody 0o644 = "rw-r--r--" := by
  refine ⟨plain_permissions, ?_, by decide, by decide, by decide⟩
  intro md mode
  rw [plain_permissions]
  simp [permBody, String.length_append, bitStr_length]
  split_ifs <;> rfl
/-! ### Concrete fixtures -/

/-- An ordinary regular-file metadata snapshot. -/
def mdPlainFile : Metadata :=
  { ftype := FType.file, len := 100, mode := 0o644, uid := 0,
    modified := some 1718357520 }

/-- An identity directory that resolves nothing. -/
def sysNone : Sys := { resolve := fun _ => none }

/-- An entry caught by the race: `fs::metadata(entry.path())` succeeded but
the second fetch `entry.metadata()` failed. -/
def raceEntry : DirEntry :=
  { pathMeta := some mdPlainFile, entryMeta := none, fileName := some "a" }

theorem ftype_dir_ne_file : FType.dir ≠ FType.file := fun hc => FType.noConfusion hc
theorem ftype_other_ne_file : FType.other ≠ FType.file := fun hc => FType.noConfusion hc
theorem ftype_other_ne_dir : FType.other ≠ FType.dir := fun hc => FType.noConfusion hc

/-! ### C3 -/

/-- C3: the claim fails on the code — producing the record is not total: an
entry whose metadata fetch in `get_entries` succeeded still aborts the whole
listing when the second metadata fetch inside `parse_file_name` fails,
because of the `entry.metadata().unwrap()` panic; at this concrete input the
record production ends in the panic instead of degrading to a placeholder. -/
theorem record_production_aborts_C3 :
    get_entries sysNone raceEntry [] = Except.error () := rfl

/-! ### C4 -/

/-- C4: for every entry whose is-directory flag is true the size field is
the fixed placeholder "-" modulo styling, regardless of the byte length. -/
theorem dir_size_placeholder_C4 (sys : Sys) (md : Metadata) (nm : Styled)
    (h : md.ftype = FType.dir) :
    plain (mkRecord sys md nm).length = "-" := by
  have h1 : md.ftype ≠ FType.file := h ▸ ftype_dir_ne_file
  simp only [mkRecord, if_neg h1]
  simp [plain_cyan, plain_txt]

/-- A directory snapshot with a huge length value. -/
def mdBigDir : Metadata :=
  { ftype := FType.dir, len := 123456789012345, mode := 0o755, uid := 0,
    modified := none }

theorem dir_size_placeholder_C4_witness :
    mdBigDir.ftype = FType.dir ∧
    plain (mkRecord sysNone mdBigDir (txt "d")).length = "-" :=
  ⟨rfl, dir_size_placeholder_C4 sysNone mdBigDir (txt "d") rfl⟩

/-! ### C5 -/

/-- C5: owner formatting returns the resolved name on success and the fixed
sentinel "User error" — never the empty string, never a propagated error —
when the lookup fails or finds no user. -/
theorem owner_fallback_C5 (sys : Sys) (uid : Nat) :
    (∀ name, sys.resolve uid = some (some name) →
      uid_to_string sys uid = name) ∧
    (sys.resolve uid = none ∨ sys.resolve uid = some none →
      uid_to_string sys uid = "User error" ∧ uid_to_string sys uid ≠ "") := by
  unfold uid_to_string
  constructor
  · intro name h
    rw [h]
  · intro h
    rcases h with h | h <;> rw [h] <;> exact ⟨rfl, by decide⟩

/-- An identity directory knowing only uid 0; uid 1 exists but has no user
record behind it. -/
def sysRoot : Sys :=
  { resolve := fun u =>
      if u = 0 then some (some "root") else if u = 1 then some none else none }

theorem owner_fallback_C5_witness :
    uid_to_string sysRoot 0 = "root" ∧
    uid_to_string sysRoot 1 = "User error" ∧
    uid_to_string sysRoot 2 = "User error" :=
  ⟨(owner_fallback_C5 sysRoot 0).1 "root" rfl,
   ((owner_fallback_C5 sysRoot 1).2 (Or.inr rfl)).1,
   ((owner_fallback_C5 sysRoot 2).2 (Or.inl rfl)).1⟩

/-! ### C6 -/

/-- C6: provided the entry's own metadata fetch succeeds (the call the name
formatter unwraps), the name field passes a decodable name through unchanged
modulo styling and substitutes the fixed placeholder "Unknown name" for an
undecodable one, without failing the entry. -/
theorem name_fallback_C6 (e : DirEntry) (md : Metadata)
    (h : e.entryMeta = some md) :
    ∃ r, parse_file_name e = Except.ok r ∧
      plain r = match e.fileName with
                | some s => s
                | none => "Unknown name" := by
  simp only [parse_file_name, h]
  split_ifs with hd <;> refine ⟨_, rfl, ?_⟩ <;> cases hn : e.fileName <;>
    simp [hn, plain_bold, plain_blue, plain_white, plain_txt]

/-- An entry with a valid UTF-8 name and consistent metadata. -/
def goodEntry : DirEntry :=
  { pathMeta := some mdPlainFile, entryMeta := some mdPlainFile,
    fileName := some "hello.txt" }

/-- An entry whose name is not valid UTF-8 (`into_string()` failed). -/
def rawNameEntry : DirEntry :=
  { pathMeta := some mdPlainFile, entryMeta := some mdPlainFile,
    fileName := none }

theorem name_fallback_C6_witness :
    (∃ r, parse_file_name goodEntry = Except.ok r ∧ plain r = "hello.txt") ∧
    (∃ r, parse_file_name rawNameEntry = Except.ok r ∧
      plain r = "Unknown name") :=
  ⟨name_fallback_C6 goodEntry mdPlainFile rfl,
   name_fallback_C6 rawNameEntry mdPlainFile rfl⟩

/-! ### C7 -/

/-- C7: the modified field is the chrono "%e %b %H:%M" rendering of the
modification timestamp when it is obtainable and exactly the empty string
when it is not; concretely, 1718357520 (2024-06-14 09:32:00 UTC) renders as
"14 Jun 09:32", the epoch as " 1 Jan 00:00" and 1718399100 as
"14 Jun 21:05". -/
theorem modified_field_C7 :
    (∀ (sys : Sys) (md : Metadata) (nm : Styled),
      (mkRecord sys md nm).modified =
        match md.modified with
        | some t => chronoFormat t
        | none => "") ∧
    chronoFormat 1718357520 = "14 Jun 09:32" ∧
    chronoFormat 0 = " 1 Jan 00:00" ∧
    chronoFormat 1718399100 = "14 Jun 21:05" := by
  refine ⟨fun sys md nm => rfl, by decide, by decide, by decide⟩
/-! ### C8 -/

/-- C8: when the existence check reports "does not exist" the program prints
exactly the fixed message "Path does not exist" and no table; when the
existence check itself errors it prints exactly "Error reading directory"
and no table; and when the check reports existence, a normally terminating
run prints a table, never either message. -/
theorem main_messages_C8 (sys : Sys) (rd : Option (List (Option DirEntry))) :
    mainModel sys (some false) rd =
      Except.ok (Output.message (red (txt "Path does not exist"))) ∧
    mainModel sys none rd =
      Except.ok (Output.message (red (txt "Error reading directory"))) ∧
    plain (red (txt "Path does not exist")) = "Path does not exist" ∧
    plain (red (txt "Error reading directory")) = "Error reading directory" ∧
    (∀ out, mainModel sys (some true) rd = Except.ok out →
      ∀ s, out ≠ Output.message s) := by
  refine ⟨rfl, rfl, by decide, by decide, ?_⟩
  intro out hout s
  simp only [mainModel, if_true] at hout
  rcases hgf : get_files sys rd with e | files <;> rw [hgf] at hout
  · simp at hout
  · simp only [Except.ok.injEq] at hout
    rw [← hout]
    intro hc
    cases hc

theorem main_messages_C8_witness :
    mainModel sysNone (some true) none = Except.ok (Output.table []) ∧
    ∀ s, Output.table ([] : List FileEntry) ≠ Output.message s :=
  ⟨rfl, fun s => (main_messages_C8 sysNone none).2.2.2.2 (Output.table []) rfl s⟩

/-! ### C9 -/

/-- When the entry's own metadata fetch succeeds, `parse_file_name` cannot
panic. -/
theorem parse_file_name_isOk (e : DirEntry) (md : Metadata)
    (h : e.entryMeta = some md) :
    ∃ nm, parse_file_name e = Except.ok nm := by
  simp only [parse_file_name, h]
  split_ifs <;> exact ⟨_, rfl⟩

/-- One step of the accumulation loop of `get_files`, under the no-race
hypothesis. -/
theorem foldl_get_entries (sys : Sys) (l : List DirEntry)
    (h : ∀ e ∈ l, e.pathMeta.isSome = true → e.entryMeta.isSome = true)
    (acc : List FileEntry) :
    l.foldlM (fun data e => get_entries sys e data) acc =
      Except.ok (acc ++ l.filterMap (specOne sys)) := by
  induction l generalizing acc with
  | nil =>
    simp only [List.foldlM_nil, List.filterMap_nil, List.append_nil]
    rfl
  | cons e rest ih =>
    have hrest : ∀ x ∈ rest, x.pathMeta.isSome = true → x.entryMeta.isSome = true :=
      fun x hx => h x (List.mem_cons_of_mem e hx)
    rcases hp : e.pathMeta with _ | md
    · have hge : get_entries sys e acc = Except.ok acc := by
        simp [get_entries, hp]
      have hso : specOne sys e = none := by
        simp [specOne, hp]
      simp only [List.foldlM_cons, hge, List.filterMap_cons, hso]
      simpa using ih hrest acc
    · have hm : e.entryMeta.isSome = true :=
        h e (List.mem_cons_self e rest) (by simp [hp])
      rcases hq : e.entryMeta with _ | md2
      · simp [hq] at hm
      obtain ⟨nm, hnm⟩ := parse_file_name_isOk e md2 hq
      have hge : get_entries sys e acc =
          Except.ok (acc ++ [mkRecord sys md nm]) := by
        simp [get_entries, hp, hnm]
      have hso : specOne sys e = some (mkRecord sys md nm) := by
        simp [specOne, hp, hnm]
      simp only [List.foldlM_cons, hge, List.filterMap_cons, hso]
      simpa [List.append_assoc] using ih hrest (acc ++ [mkRecord sys md nm])

/-- C9 amended: provided each surviving entry with a successful
`fs::metadata(entry.path())` fetch also has a successful `entry.metadata()`
fetch (otherwise the name formatter's unwrap panic aborts the run), listing
never fails: a directory that cannot be opened or enumerated yields the
empty record list with no message, every entry whose metadata fetch fails is
silently omitted, and exactly the entries with successful fetches appear as
records in enumeration order. -/
theorem listing_fail_soft_C9 (sys : Sys) :
    get_files sys none = Except.ok [] ∧
    ∀ es : List (Option DirEntry),
      (∀ e ∈ es.filterMap id,
        e.pathMeta.isSome = true → e.entryMeta.isSome = true) →
      get_files sys (some es) = Except.ok (listingSpec sys es) := by
  refine ⟨rfl, fun es h => ?_⟩
  unfold get_files listingSpec
  simpa using foldl_get_entries sys (es.filterMap id) h []

/-- A second race-caught entry, for the C9 counterexample input. -/
def raceEntryB : DirEntry :=
  { pathMeta := some { ftype := FType.file, len := 7, mode := 0o600,
                       uid := 1000, modified := none },
    entryMeta := none, fileName := some "b" }

/-- C9 counterexample: listing an existing path can fail — on a directory
holding one race-caught entry, `get_files` ends in the unwrap panic instead
of a record list. -/
theorem listing_panics_C9_cex :
    get_files sysNone (some [some raceEntryB]) = Except.error () := rfl

/-- A fixture listing: one good entry, one iterator error, one entry whose
metadata fetch fails. -/
def esFixture : List (Option DirEntry) :=
  [some goodEntry, none,
   some { pathMeta := none, entryMeta := none, fileName := some "gone" }]

theorem listing_fail_soft_C9_witness :
    get_files sysNone (some esFixture) =
      Except.ok (listingSpec sysNone esFixture) :=
  (listing_fail_soft_C9 sysNone).2 esFixture (by decide)

/-! ### C10 -/

/-- C10: the size-field branch tests the is-regular-file flag, not the
is-directory flag — every entry that is not a regular file, in particular a
non-directory special file (socket, FIFO, ...), gets the "-" placeholder
size even though its type tag is File and its byte length is available. -/
theorem special_file_size_C10 (sys : Sys) (md : Metadata) (nm : Styled) :
    (md.ftype ≠ FType.file → plain (mkRecord sys md nm).length = "-") ∧
    (md.ftype = FType.other →
      plain (mkRecord sys md nm).length = "-" ∧
      (mkRecord sys md nm).e_type = FileType.File) := by
  constructor
  · intro h
    simp only [mkRecord, if_neg h]
    simp [plain_cyan, plain_txt]
  · intro h
    have h1 : md.ftype ≠ FType.file := h ▸ ftype_other_ne_file
    have h2 : md.ftype ≠ FType.dir := h ▸ ftype_other_ne_dir
    constructor
    · simp only [mkRecord, if_neg h1]
      simp [plain_cyan, plain_txt]
    · simp only [mkRecord, if_neg h2]

/-- A socket-like snapshot: not a directory, not a regular file, with a
nonzero length. -/
def mdSocket : Metadata :=
  { ftype := FType.other, len := 4096, mode := 0o755, uid := 0,
    modified := none }

theorem special_file_size_C10_witness :
    mdSocket.ftype = FType.other ∧
    plain (mkRecord sysNone mdSocket (txt "s")).length = "-" ∧
    (mkRecord sysNone mdSocket (txt "s")).e_type = FileType.File :=
  ⟨rfl, (special_file_size_C10 sysNone mdSocket (txt "s")).2 rfl⟩
